import Mathlib

/-!
Shallow embedding of the `evil` crate (supervillain coordinator) and proofs of
its specification properties.

Source files embedded: `src/supervillain.rs` (the `Supervillain` struct and its
operations), `src/sidekick.rs` (the sidekick behaviour the supervillain
observes), `src/cipher.rs`, `src/henchman.rs`, `src/gadget.rs` (capability
traits).

Modelling conventions:
- Side-effecting calls on collaborators (`Henchman`, `Sidekick::tell`,
  `Megaweapon::shoot`) are recorded as an event trace returned by the
  operation, in call order.
- The sidekick is modelled by the data the supervillain observes through its
  methods: the boolean returned by `agree` and the list returned by
  `get_weak_targets`. Both the production `Sidekick` and the test double
  ignore the `Gadget` argument of `get_weak_targets`, so the gadget parameter
  is elided.
- `set_full_name` takes `&mut self` and may `panic!`; it is embedded as an
  `Except` whose error carries the panic message together with the state of
  the receiver at the abort point. In the source the `panic!` statement
  precedes both field assignments, so the carried state is the entry state.
- `TryFrom<&str>` is embedded as a total function into `Except String`; the
  source has no panicking path.
- Rust's `str::split(" ")` (split at every occurrence of the single-space
  separator, keeping empty pieces between adjacent separators and at both
  ends; `"".split(" ")` yields `[""]`) is embedded as the structurally
  recursive `split_space` below.
-/

namespace Evil

/-- Behaviour of a sidekick as observed by the supervillain: the result of its
`agree` consent query and the targets returned by `get_weak_targets`
(`src/sidekick.rs`; the production struct answers `true` and `[]`, the test
double is configurable, the supervillain code is agnostic). -/
structure Sidekick where
  agree : Bool
  get_weak_targets : List String
deriving DecidableEq

/-- The `Cipher` trait of `src/cipher.rs`: a single `transform` method from a
secret and a key to a ciphered string. -/
structure Cipher where
  transform : String → String → String

/-- Observable calls made by the supervillain on its collaborators: the three
`Henchman` methods, `Sidekick::tell`, and `Megaweapon::shoot`. -/
inductive Event where
  | build_secret_hq (location : String)
  | do_hard_things
  | fight_enemies
  | tell (ciphered_msg : String)
  | shoot
deriving DecidableEq

/-- The `Supervillain` struct of `src/supervillain.rs`. -/
structure Supervillain where
  first_name : String
  last_name : String
  sidekick : Option Sidekick
  shared_key : String
deriving DecidableEq

/-- `#[derive(Default)]`: all strings empty, no sidekick. -/
def Supervillain.default : Supervillain :=
  { first_name := "", last_name := "", sidekick := none, shared_key := "" }

/-- Accumulator loop for `split_space`: `acc` holds the characters of the
current component in reverse. -/
def split_space_aux : List Char → List Char → List String
  | [], acc => [String.mk acc.reverse]
  | c :: cs, acc =>
    if c = ' ' then String.mk acc.reverse :: split_space_aux cs []
    else split_space_aux cs (c :: acc)

/-- Rust `str::split(" ")` on a string: cut at every single space character,
keeping empty components between adjacent spaces and at both ends, so the
result is always non-empty (`""` gives `[""]`). -/
def split_space (s : String) : List String :=
  split_space_aux s.data []

/-- `Supervillain::full_name`: first name, a single space, last name. -/
def Supervillain.full_name (s : Supervillain) : String :=
  s.first_name ++ " " ++ s.last_name

/-- `Supervillain::set_full_name`: split on `" "`; if the component count is
not exactly 2, `panic!("Name must have first and last name")` (the error case,
carrying the receiver state at the abort, which precedes both assignments);
otherwise assign components 0 and 1 to `first_name` and `last_name`. -/
def Supervillain.set_full_name (s : Supervillain) (name : String) :
    Except (String × Supervillain) Supervillain :=
  let components := split_space name
  if components.length ≠ 2 then
    Except.error ("Name must have first and last name", s)
  else
    Except.ok { s with
                first_name := components.getD 0 ""
                last_name := components.getD 1 "" }

/-- `Supervillain::attack`: unconditionally calls `weapon.shoot()`. -/
def Supervillain.attack (_s : Supervillain) : List Event :=
  [Event.shoot]

/-- `Supervillain::conspire`: if a sidekick is attached and it does not agree,
set `sidekick` to `None`; otherwise leave the state alone. -/
def Supervillain.conspire (s : Supervillain) : Supervillain :=
  match s.sidekick with
  | some sk => if !sk.agree then { s with sidekick := none } else s
  | none => s

/-- `Supervillain::start_world_domination_stage1`: if a sidekick is attached,
ask it for weak targets; if the list is non-empty, call
`henchman.build_secret_hq` with element 0 (the head). -/
def Supervillain.start_world_domination_stage1 (s : Supervillain) : List Event :=
  match s.sidekick with
  | some sk =>
    match sk.get_weak_targets with
    | [] => []
    | t0 :: _ => [Event.build_secret_hq t0]
  | none => []

/-- `Supervillain::start_world_domination_stage2`: unconditionally call
`henchman.do_hard_things()` then `henchman.fight_enemies()`. -/
def Supervillain.start_world_domination_stage2 (_s : Supervillain) : List Event :=
  [Event.do_hard_things, Event.fight_enemies]

/-- `Supervillain::tell_plans`: if a sidekick is attached, compute
`cipher.transform(secret, &self.shared_key)` and pass it to `sidekick.tell`. -/
def Supervillain.tell_plans (s : Supervillain) (secret : String) (cipher : Cipher) :
    List Event :=
  match s.sidekick with
  | some _ => [Event.tell (cipher.transform secret s.shared_key)]
  | none => []

/-- `TryFrom<&str> for Supervillain`: split on `" "`; fewer than 2 components
is the recoverable error `"Too few arguments"`; otherwise build a supervillain
from components 0 and 1, with `sidekick: None` and the remaining fields from
`Default::default()`. -/
def Supervillain.try_from (name : String) : Except String Supervillain :=
  let components := split_space name
  if components.length < 2 then
    Except.error "Too few arguments"
  else
    Except.ok { first_name := components.getD 0 ""
                last_name := components.getD 1 ""
                sidekick := none
                shared_key := "" }

/-- The public operations of `Supervillain`, with the arguments that can
influence its state or trace. -/
inductive Op where
  | conspire
  | set_full_name (name : String)
  | start_world_domination_stage1
  | start_world_domination_stage2
  | tell_plans (secret : String) (cipher : Cipher)
  | attack
  | full_name

/-- State transition of one public operation. Operations taking `&self`
(`full_name`, `attack`, `start_world_domination_stage1/2`, `tell_plans`)
cannot mutate the receiver; `set_full_name` lands in the post state on
success and in the carried abort state on panic. -/
def applyOp (s : Supervillain) : Op → Supervillain
  | Op.conspire => s.conspire
  | Op.set_full_name name =>
    match s.set_full_name name with
    | Except.ok s' => s'
    | Except.error (_, st) => st
  | Op.start_world_domination_stage1 => s
  | Op.start_world_domination_stage2 => s
  | Op.tell_plans _ _ => s
  | Op.attack => s
  | Op.full_name => s

/-- C1: with a sidekick attached, `conspire` sets the `sidekick` field to
`None` iff the sidekick's `agree` returns `false`; if it returns `true` the
same sidekick remains attached (state unchanged); with no sidekick attached
`conspire` leaves the state unchanged. -/
theorem conspire_spec (s : Supervillain) :
    (∀ sk, s.sidekick = some sk →
      ((s.conspire).sidekick = none ↔ sk.agree = false) ∧
      (sk.agree = true → s.conspire = s)) ∧
    (s.sidekick = none → s.conspire = s) := by
  constructor
  · intro sk h
    cases hag : sk.agree <;>
      simp [Supervillain.conspire, h, hag]
  · intro h
    simp [Supervillain.conspire, h]

/-- C1 witness: a supervillain whose sidekick refuses loses it to
`conspire`. -/
theorem conspire_spec_witness :
    (Supervillain.conspire
      { first_name := "Lex", last_name := "Luthor",
        sidekick := some { agree := false, get_weak_targets := [] },
        shared_key := "k" }).sidekick = none :=
  ((conspire_spec _).1 _ rfl).1.mpr rfl

/-- C2: `start_world_domination_stage1` calls `build_secret_hq` exactly once,
with the head of the sidekick's target list, when a sidekick is attached and
its targets are non-empty; it produces no collaborator call when the target
list is empty or no sidekick is attached. -/
theorem start_world_domination_stage1_spec (s : Supervillain) :
    (∀ sk t0 rest, s.sidekick = some sk → sk.get_weak_targets = t0 :: rest →
      s.start_world_domination_stage1 = [Event.build_secret_hq t0]) ∧
    (∀ sk, s.sidekick = some sk → sk.get_weak_targets = [] →
      s.start_world_domination_stage1 = []) ∧
    (s.sidekick = none → s.start_world_domination_stage1 = []) := by
  refine ⟨?_, ?_, ?_⟩
  · intro sk t0 rest hsk htg
    simp [Supervillain.start_world_domination_stage1, hsk, htg]
  · intro sk hsk htg
    simp [Supervillain.start_world_domination_stage1, hsk, htg]
  · intro h
    simp [Supervillain.start_world_domination_stage1, h]

/-- C2 witness: with targets `["Paris", "Tokyo"]` the henchman is told to
build exactly once, at `"Paris"`. -/
theorem start_world_domination_stage1_spec_witness :
    Supervillain.start_world_domination_stage1
      { first_name := "", last_name := "",
        sidekick := some { agree := true, get_weak_targets := ["Paris", "Tokyo"] },
        shared_key := "" } = [Event.build_secret_hq "Paris"] :=
  (start_world_domination_stage1_spec _).1 _ "Paris" ["Tokyo"] rfl rfl

/-- C3: with a sidekick attached, `tell_plans` passes exactly
`cipher.transform secret shared_key` to the sidekick's `tell`, once; with no
sidekick attached neither the cipher output nor any delivery appears in the
trace. -/
theorem tell_plans_spec (s : Supervillain) (secret : String) (cipher : Cipher) :
    (∀ sk, s.sidekick = some sk →
      s.tell_plans secret cipher = [Event.tell (cipher.transform secret s.shared_key)]) ∧
    (s.sidekick = none → s.tell_plans secret cipher = []) := by
  constructor
  · intro sk hsk
    simp [Supervillain.tell_plans, hsk]
  · intro h
    simp [Supervillain.tell_plans, h]

/-- C3 witness: a plus-wrapping cipher's output `"+PLAN+"` is delivered
verbatim. -/
theorem tell_plans_spec_witness :
    Supervillain.tell_plans
      { first_name := "", last_name := "",
        sidekick := some { agree := true, get_weak_targets := [] },
        shared_key := "K" }
      "PLAN" { transform := fun secret _key => "+" ++ secret ++ "+" } =
      [Event.tell "+PLAN+"] :=
  (tell_plans_spec _ "PLAN" _).1 _ rfl

/-- Helper: whenever splitting yields at least two components, `try_from`
succeeds with components 0 and 1 and defaulted remaining fields. -/
theorem try_from_cons (name f l : String) (rest : List String)
    (h : split_space name = f :: l :: rest) :
    Supervillain.try_from name =
      Except.ok { first_name := f, last_name := l, sidekick := none,
                  shared_key := "" } := by
  simp [Supervillain.try_from, h]

/-- C4: `set_full_name` aborts fatally, with the message
`"Name must have first and last name"`, iff the input does not split into
exactly two components; on exactly two components it sets `first_name` to the
first and `last_name` to the second. -/
theorem set_full_name_spec (s : Supervillain) (name : String) :
    ((∃ msg st, s.set_full_name name = Except.error (msg, st)) ↔
      (split_space name).length ≠ 2) ∧
    (∀ msg st, s.set_full_name name = Except.error (msg, st) →
      msg = "Name must have first and last name") ∧
    (∀ f l, split_space name = [f, l] →
      s.set_full_name name =
        Except.ok { s with first_name := f, last_name := l }) := by
  refine ⟨?_, ?_, ?_⟩
  · by_cases h : (split_space name).length = 2 <;>
      simp [Supervillain.set_full_name, h]
  · intro msg st h
    by_cases hl : (split_space name).length = 2 <;>
      simp [Supervillain.set_full_name, hl] at h
    exact h.1.symm
  · intro f l h
    simp [Supervillain.set_full_name, h]

/-- C4 witness: `"Lex Luthor"` is parsed into the two name fields, and `""`
aborts fatally with the descriptive message. -/
theorem set_full_name_spec_witness :
    Supervillain.set_full_name Supervillain.default "Lex Luthor" =
      Except.ok { Supervillain.default with
                  first_name := "Lex", last_name := "Luthor" } ∧
    (∃ msg st,
      Supervillain.set_full_name Supervillain.default "" =
        Except.error (msg, st)) ∧
    (∀ msg st,
      Supervillain.set_full_name Supervillain.default "" =
        Except.error (msg, st) →
      msg = "Name must have first and last name") :=
  ⟨(set_full_name_spec _ _).2.2 "Lex" "Luthor" rfl,
   (set_full_name_spec Supervillain.default "").1.mpr (by decide),
   (set_full_name_spec Supervillain.default "").2.1⟩

/-- C9: on the fatal path (component count not exactly two), `set_full_name`
has performed no mutation: the receiver state carried at the abort point keeps
the prior `first_name` and `last_name`. -/
theorem set_full_name_abort_preserves_names (s : Supervillain) (name : String)
    (msg : String) (st : Supervillain)
    (h : s.set_full_name name = Except.error (msg, st)) :
    st.first_name = s.first_name ∧ st.last_name = s.last_name := by
  by_cases hl : (split_space name).length = 2 <;>
    simp [Supervillain.set_full_name, hl] at h
  rw [← h.2]
  exact ⟨rfl, rfl⟩

/-- C9 witness: aborting on `""` leaves `"Lex"`/`"Luthor"` in place. -/
theorem set_full_name_abort_preserves_names_witness :
    ∃ msg st,
      Supervillain.set_full_name
        { first_name := "Lex", last_name := "Luthor",
          sidekick := none, shared_key := "" } "" =
        Except.error (msg, st) ∧
      st.first_name = "Lex" ∧ st.last_name = "Luthor" :=
  ⟨"Name must have first and last name",
   { first_name := "Lex", last_name := "Luthor",
     sidekick := none, shared_key := "" },
   rfl,
   set_full_name_abort_preserves_names
     { first_name := "Lex", last_name := "Luthor",
       sidekick := none, shared_key := "" } ""
     "Name must have first and last name"
     { first_name := "Lex", last_name := "Luthor",
       sidekick := none, shared_key := "" } rfl⟩

/-- C5: the fallible constructor returns the recoverable error
`"Too few arguments"` iff fewer than two components are found (its embedding
is a total function: no panicking path exists in the source); on success the
first two components become `first_name` and `last_name`. -/
theorem try_from_spec (name : String) :
    ((∃ e, Supervillain.try_from name = Except.error e) ↔
      (split_space name).length < 2) ∧
    (∀ e, Supervillain.try_from name = Except.error e → e = "Too few arguments") ∧
    (∀ f l rest, split_space name = f :: l :: rest →
      Supervillain.try_from name =
        Except.ok { first_name := f, last_name := l, sidekick := none,
                    shared_key := "" }) := by
  refine ⟨?_, ?_, ?_⟩
  · by_cases h : (split_space name).length < 2 <;>
      simp [Supervillain.try_from, h]
  · intro e h
    by_cases hl : (split_space name).length < 2 <;>
      simp [Supervillain.try_from, hl] at h
    exact h.symm
  · intro f l rest h
    exact try_from_cons name f l rest h

/-- C5 witness: `"Lex Luthor"` succeeds with the two components; `"Lex"`
yields the recoverable error. -/
theorem try_from_spec_witness :
    Supervillain.try_from "Lex Luthor" =
      Except.ok { first_name := "Lex", last_name := "Luthor", sidekick := none,
                  shared_key := "" } ∧
    (∃ e, Supervillain.try_from "Lex" = Except.error e) :=
  ⟨(try_from_spec _).2.2 "Lex" "Luthor" [] rfl,
   (try_from_spec "Lex").1.mpr (by decide)⟩

/-- C10: on three or more components the fallible constructor succeeds,
keeping components 0 and 1, ignoring the rest, with `sidekick = none` and an
empty `shared_key`. -/
theorem try_from_extra_components (name f l c : String) (rest : List String)
    (h : split_space name = f :: l :: c :: rest) :
    Supervillain.try_from name =
      Except.ok { first_name := f, last_name := l, sidekick := none,
                  shared_key := "" } :=
  try_from_cons name f l (c :: rest) h

/-- C10 witness: `"a b c"` succeeds, keeping `"a"` and `"b"` only. -/
theorem try_from_extra_components_witness :
    Supervillain.try_from "a b c" =
      Except.ok { first_name := "a", last_name := "b", sidekick := none,
                  shared_key := "" } :=
  try_from_extra_components "a b c" "a" "b" "c" [] rfl

/-- C7: `start_world_domination_stage2` calls `do_hard_things` exactly once
and `fight_enemies` exactly once, in that order, regardless of the sidekick. -/
theorem start_world_domination_stage2_spec (s : Supervillain) :
    s.start_world_domination_stage2 = [Event.do_hard_things, Event.fight_enemies] ∧
    (s.start_world_domination_stage2).count Event.do_hard_things = 1 ∧
    (s.start_world_domination_stage2).count Event.fight_enemies = 1 :=
  ⟨rfl, rfl, rfl⟩

/-- Helper: a single public operation either leaves the `sidekick` field
untouched, or clears it and is `conspire`. -/
theorem applyOp_sidekick_step (s : Supervillain) (op : Op) :
    (applyOp s op).sidekick = s.sidekick ∨
      ((applyOp s op).sidekick = none ∧ op = Op.conspire) := by
  cases op with
  | conspire =>
    rcases h : s.sidekick with _ | sk
    · left
      simp [applyOp, Supervillain.conspire, h]
    · cases hag : sk.agree
      · right
        simp [applyOp, Supervillain.conspire, h, hag]
      · left
        simp [applyOp, Supervillain.conspire, h, hag]
  | set_full_name name =>
    left
    by_cases h : (split_space name).length = 2 <;>
      simp [applyOp, Supervillain.set_full_name, h]
  | start_world_domination_stage1 => left; rfl
  | start_world_domination_stage2 => left; rfl
  | tell_plans secret cipher => left; rfl
  | attack => left; rfl
  | full_name => left; rfl

/-- C6: no public operation ever re-attaches a sidekick: each step either
preserves the `sidekick` field or clears it (and only `conspire` clears it),
and along any sequence of public operations a state with no sidekick never
regains one. -/
theorem sidekick_never_reattached (s : Supervillain) (ops : List Op) :
    (∀ op, (applyOp s op).sidekick = s.sidekick ∨
      ((applyOp s op).sidekick = none ∧ op = Op.conspire)) ∧
    (s.sidekick = none → (ops.foldl applyOp s).sidekick = none) := by
  constructor
  · exact applyOp_sidekick_step s
  · induction ops generalizing s with
    | nil => exact fun h => h
    | cons op rest ih =>
      intro h
      rw [List.foldl_cons]
      apply ih
      rcases applyOp_sidekick_step s op with h1 | h1
      · rw [h1]; exact h
      · exact h1.1

/-- C6 witness: a sidekick-less supervillain stays sidekick-less across a
run of every kind of public operation. -/
theorem sidekick_never_reattached_witness :
    (List.foldl applyOp
      { first_name := "Lex", last_name := "Luthor", sidekick := none,
        shared_key := "K" }
      [Op.conspire, Op.attack, Op.start_world_domination_stage1,
       Op.start_world_domination_stage2,
       Op.tell_plans "PLAN" { transform := fun a _ => a },
       Op.set_full_name "Doctor Doom", Op.full_name]).sidekick = none :=
  (sidekick_never_reattached _ _).2 rfl

/-- Helper: `conspire` never changes the name fields or the shared key. -/
theorem conspire_frame (s : Supervillain) :
    (s.conspire).first_name = s.first_name ∧
    (s.conspire).last_name = s.last_name ∧
    (s.conspire).shared_key = s.shared_key := by
  rcases h : s.sidekick with _ | sk
  · simp [Supervillain.conspire, h]
  · cases hag : sk.agree <;> simp [Supervillain.conspire, h, hag]

/-- C8: frame property. Every public operation other than `set_full_name`
leaves `first_name`, `last_name` and `shared_key` unchanged; every operation
other than `conspire` leaves `sidekick` unchanged; and `conspire` itself
leaves the name fields and shared key unchanged whether or not it detaches
the sidekick. -/
theorem frame_spec (s : Supervillain) (op : Op) :
    ((∀ name, op ≠ Op.set_full_name name) →
      (applyOp s op).first_name = s.first_name ∧
      (applyOp s op).last_name = s.last_name ∧
      (applyOp s op).shared_key = s.shared_key) ∧
    (op ≠ Op.conspire → (applyOp s op).sidekick = s.sidekick) ∧
    ((s.conspire).first_name = s.first_name ∧
     (s.conspire).last_name = s.last_name ∧
     (s.conspire).shared_key = s.shared_key) := by
  refine ⟨?_, ?_, conspire_frame s⟩
  · intro hne
    cases op with
    | conspire => exact conspire_frame s
    | set_full_name name => exact absurd rfl (hne name)
    | start_world_domination_stage1 => exact ⟨rfl, rfl, rfl⟩
    | start_world_domination_stage2 => exact ⟨rfl, rfl, rfl⟩
    | tell_plans secret cipher => exact ⟨rfl, rfl, rfl⟩
    | attack => exact ⟨rfl, rfl, rfl⟩
    | full_name => exact ⟨rfl, rfl, rfl⟩
  · intro hne
    cases op with
    | conspire => exact absurd rfl hne
    | set_full_name name =>
      by_cases h : (split_space name).length = 2 <;>
        simp [applyOp, Supervillain.set_full_name, h]
    | start_world_domination_stage1 => rfl
    | start_world_domination_stage2 => rfl
    | tell_plans secret cipher => rfl
    | attack => rfl
    | full_name => rfl

/-- C8 witness: `attack` changes neither the names, the key, nor the
sidekick. -/
theorem frame_spec_witness :
    (applyOp { first_name := "Lex", last_name := "Luthor", sidekick := none,
               shared_key := "K" } Op.attack).first_name = "Lex" ∧
    (applyOp { first_name := "Lex", last_name := "Luthor", sidekick := none,
               shared_key := "K" } Op.attack).shared_key = "K" ∧
    (applyOp { first_name := "Lex", last_name := "Luthor", sidekick := none,
               shared_key := "K" } Op.attack).sidekick = none :=
  ⟨((frame_spec _ Op.attack).1 (fun _ h => Op.noConfusion h)).1,
   ((frame_spec _ Op.attack).1 (fun _ h => Op.noConfusion h)).2.2,
   (frame_spec _ Op.attack).2.1 (fun h => Op.noConfusion h)⟩

end Evil
